import Mathlib

/-!
# winejoystick.drv : the joystick slot table of `joystick_linux.c`

A shallow embedding of `dlls/winejoystick.drv/joystick_linux.c`:
the slot table `JSTCK_Data`, handle validation by pointer arithmetic
(`JSTCK_drvGet`), `driver_open`, `driver_close`, the lazy backend probe
`JSTCK_OpenDevice`, `driver_joyGetDevCaps` and `driver_joyGetPosEx`.

Conventions of the embedding

* A pointer is its address, a natural number below `2 ^ 64`; `NULL` is `0`.
  `DWORD_PTR` arithmetic is arithmetic modulo `2 ^ 64`, `DWORD` arithmetic is
  arithmetic modulo `2 ^ 32`, a C `int` is an `Int`.
* Where the linker puts `JSTCK_Data` and how large one `WINE_JSTCK` is are not
  fixed by the source file; both are carried by a `Layout`.
* The only `WINE_JSTCK` objects are the `MAXJOYSTICK` elements of `JSTCK_Data`.
  Reading or writing a `WINE_JSTCK` through an address that is not the address
  of one of them is reported as a `Fault`, and so is the read of
  `joysticks[jstck->dev]` in `driver_close` with an index past the end of the
  array.
* Calls that leave the file (`GetTickCount`, the SDL functions) take their
  results from an `Env` and are appended to the call log `State.calls`.
-/

namespace WineJoystick

/-! ## Constants -/

/-- Modelled from the spec: `JOYSTICKID2` comes from `mmsystem.h`, which is not
among the sources; it is the second of the two standard joystick ids
(`JOYSTICKID1 = 0`, `JOYSTICKID2 = 1`). -/
def JOYSTICKID2 : Nat := 1

/-- The macro `#define MAXJOYSTICK (JOYSTICKID2 + 30)`. -/
def MAXJOYSTICK : Nat := JOYSTICKID2 + 30

/-- The constant `ABS_MAX` of `<linux/input.h>`, used only for the length of
`axesMap`. -/
def ABS_MAX : Nat := 0x3f

/-- Modelled from the spec: the status `JOYERR_NOERROR` of `mmsystem.h`, which
is not among the sources; it is the success status, 0. -/
def JOYERR_NOERROR : Nat := 0

/-- Modelled from the spec: the status `JOYERR_PARMS` of `mmsystem.h`, which is
not among the sources; it is `JOYERR_BASE + 5` with `JOYERR_BASE = 160`. -/
def JOYERR_PARMS : Nat := 165

/-- Modelled from the spec: the status `MMSYSERR_NODRIVER` of `mmsystem.h`,
which is not among the sources; it is `MMSYSERR_BASE + 6` with
`MMSYSERR_BASE = 0`. -/
def MMSYSERR_NODRIVER : Nat := 6

/-! ## Data model -/

/-- The record `struct tagWINE_JSTCK`.  `BOOL` is a C `int`: `in_use` is tested
for being non-zero and `TRUE` is `1`.  The fields `joyIntf` to `axesMap` are
the members the `typedef` declares, in its order.  The last field, `dev`, is
not among them: `driver_close` reads and writes `jstck->dev`, a member the
`typedef` of the source file does not declare.  It is kept as a field of its
own; `driver_close` is the only function that touches it, and the only value
it ever stores there is 0. -/
structure WINE_JSTCK where
  joyIntf : Int
  in_use : Int
  id : Int
  x : Int
  y : Int
  z : Int
  r : Int
  u : Int
  v : Int
  pov_x : Int
  pov_y : Int
  buttons : Int
  axesMap : List Int
  dev : Int
deriving DecidableEq, Repr

/-- A call that leaves the file. -/
inductive Call where
  | GetTickCount
  | SDL_IsGameController (index : Int)
  | SDL_GameControllerOpen (index : Int)
  | SDL_GetError
  | SDL_GameControllerClose (controller : Nat)
deriving DecidableEq, Repr

/-- The static storage of the file together with the log of outside calls.

* `JSTCK_Data` is `static WINE_JSTCK JSTCK_Data[MAXJOYSTICK]`.
* `joysticks` is `SDL_GameController *joysticks[MAXJOYSTICK]`; a controller
  pointer is its address, `0` for `NULL`.  The code indexes it with the C `int`
  it has at hand and never compares that index with a bound, so the cells are
  addressed by `Int`; the cells `0 .. MAXJOYSTICK - 1` are the array.
  `driver_close` reads the cell `dev > 0` and hands what it finds to SDL: that
  read is a `Fault` when `dev` is past the end of the array.
  `JSTCK_OpenDevice` stores at the cell `id`, which is 0 or negative on that
  path; the store is kept in the cell of its index.
* `last_attempt` is the `static DWORD last_attempt` of `JSTCK_OpenDevice`.
* `calls` lists the outside calls made so far, oldest first. -/
structure State where
  JSTCK_Data : Fin MAXJOYSTICK → WINE_JSTCK
  joysticks : Int → Nat
  last_attempt : Nat
  calls : List Call

/-- What the outside world answers during one call into the driver. -/
structure Env where
  GetTickCount : Nat
  SDL_IsGameController : Int → Bool
  SDL_GameControllerOpen : Int → Nat

/-- Address of `JSTCK_Data` and `sizeof(JSTCK_Data[0])`. -/
structure Layout where
  base : Nat
  size : Nat
deriving DecidableEq, Repr

/-- A layout a 64-bit process can have: the array is not at `NULL`, an element
has at least one byte, and the array lies inside the address space. -/
def Layout.wf (L : Layout) : Prop :=
  0 < L.base ∧ 0 < L.size ∧ L.base + MAXJOYSTICK * L.size ≤ 2 ^ 64

instance (L : Layout) : Decidable L.wf := by
  unfold Layout.wf; exact inferInstance

/-- The address `&JSTCK_Data[i]`. -/
def Layout.addr (L : Layout) (i : Nat) : Nat := L.base + i * L.size

/-- The element of `JSTCK_Data` that lives at address `a`, when there is one. -/
def slotAt (L : Layout) (a : Nat) : Option (Fin MAXJOYSTICK) :=
  (List.finRange MAXJOYSTICK).find? (fun i => decide (L.addr i.val = a))

/-- An access outside the objects of the file: `wildAccess` is an access to a
`WINE_JSTCK` through an address outside `JSTCK_Data`, `joysticksIndex` is the
read of `joysticks[index]` with `index` past the end of the array. -/
inductive Fault where
  | wildAccess (addr : Nat)
  | joysticksIndex (index : Int)
deriving DecidableEq, Repr

deriving instance DecidableEq for Except

/-- A zero-initialised `WINE_JSTCK`. -/
def WINE_JSTCK.zero : WINE_JSTCK :=
  { joyIntf := 0, in_use := 0, id := 0, x := 0, y := 0, z := 0, r := 0, u := 0,
    v := 0, pov_x := 0, pov_y := 0, buttons := 0,
    axesMap := List.replicate (ABS_MAX + 1) 0, dev := 0 }

/-- The static storage at process start: everything zero, no call made. -/
def State.zero : State :=
  { JSTCK_Data := fun _ => WINE_JSTCK.zero
    joysticks := fun _ => 0
    last_attempt := 0
    calls := [] }

/-! ## Machine arithmetic -/

/-- Conversion of an unsigned value to a 32-bit C `int` (two's complement). -/
def toInt32 (n : Nat) : Int :=
  if n % 2 ^ 32 < 2 ^ 31 then ((n % 2 ^ 32 : Nat) : Int)
  else ((n % 2 ^ 32 : Nat) : Int) - 2 ^ 32

/-- Subtraction of two `DWORD_PTR` values, modulo `2 ^ 64`. -/
def subPtr (a b : Nat) : Nat := (a % 2 ^ 64 + 2 ^ 64 - b % 2 ^ 64) % 2 ^ 64

/-- Subtraction of two `DWORD` values, modulo `2 ^ 32`. -/
def subDword (a b : Nat) : Nat := (a % 2 ^ 32 + 2 ^ 32 - b % 2 ^ 32) % 2 ^ 32

/-! ## The functions of the file -/

/-- The function `JSTCK_drvGet`: the remainder test, the quotient stored in
the `int p`, the range test on `p`, and last (the `||` is evaluated left to
right) the read of `((WINE_JSTCK*)dwDevID)->in_use`. -/
def JSTCK_drvGet (L : Layout) (s : State) (dwDevID : Nat) : Except Fault Nat :=
  if subPtr dwDevID L.base % L.size ≠ 0 then .ok 0
  else
    let p : Int := toInt32 (subPtr dwDevID L.base / L.size)
    if p < 0 ∨ p ≥ (MAXJOYSTICK : Int) then .ok 0
    else
      match slotAt L dwDevID with
      | none => .error (Fault.wildAccess dwDevID)
      | some i => if (s.JSTCK_Data i).in_use = 0 then .ok 0 else .ok dwDevID

/-- Assignment to the element `JSTCK_Data[i]`. -/
def State.setSlot (s : State) (i : Fin MAXJOYSTICK) (w : WINE_JSTCK) : State :=
  { s with JSTCK_Data := Function.update s.JSTCK_Data i w }

/-- One more outside call in the log. -/
def State.log (s : State) (c : Call) : State :=
  { s with calls := s.calls ++ [c] }

/-- The function `driver_open`; the unused argument `str` is left out.  The
result is the return value and the storage afterwards. -/
def driver_open (L : Layout) (s : State) (dwIntf : Nat) : Nat × State :=
  if h : dwIntf < MAXJOYSTICK then
    if (s.JSTCK_Data ⟨dwIntf, h⟩).in_use ≠ 0 then (0, s)
    else
      (L.addr dwIntf,
        s.setSlot ⟨dwIntf, h⟩
          { s.JSTCK_Data ⟨dwIntf, h⟩ with
            joyIntf := (dwIntf : Int), id := -1, in_use := 1 })
  else (0, s)

/-- The function `driver_close`.  In the release branch the index `dev` is
positive and is not compared with a bound by the code: with
`dev >= MAXJOYSTICK` the read of `joysticks[jstck->dev]` leaves the array. -/
def driver_close (L : Layout) (s : State) (dwDevID : Nat) :
    Except Fault (Nat × State) :=
  match JSTCK_drvGet L s dwDevID with
  | .error f => .error f
  | .ok jstck =>
    if jstck = 0 then .ok (0, s)
    else
      match slotAt L jstck with
      | none => .error (Fault.wildAccess jstck)
      | some i =>
        let s1 := s.setSlot i { s.JSTCK_Data i with in_use := 0 }
        if (s1.JSTCK_Data i).dev > 0 then
          if (s1.JSTCK_Data i).dev < (MAXJOYSTICK : Int) then
            let s2 := s1.log
              (Call.SDL_GameControllerClose (s1.joysticks (s1.JSTCK_Data i).dev))
            .ok (1, s2.setSlot i { s2.JSTCK_Data i with dev := 0 })
          else .error (Fault.joysticksIndex (s1.JSTCK_Data i).dev)
        else .ok (1, s1)

/-- The function `JSTCK_OpenDevice`.  The argument `jstick` points to an
element of `JSTCK_Data` and is given as that element's index.  The body of the
source names the same pointer `jstck` in the probe; the `break` after the
first `fprintf` stands outside any loop and, like the `fprintf` calls, has no
effect on the storage. -/
def JSTCK_OpenDevice (E : Env) (s : State) (jstick : Fin MAXJOYSTICK) :
    Int × State :=
  let id := (s.JSTCK_Data jstick).id
  if id > 0 then (id, s)
  else
    let now := E.GetTickCount % 2 ^ 32
    let s1 := s.log Call.GetTickCount
    if subDword now s1.last_attempt < 2000 then (-1, s1)
    else
      let s2 := ({ s1 with last_attempt := now } : State).log
        (Call.SDL_IsGameController id)
      if E.SDL_IsGameController id then
        let s3 := ({ s2 with
          joysticks := Function.update s2.joysticks id
            (E.SDL_GameControllerOpen id) } : State).log
          (Call.SDL_GameControllerOpen id)
        if s3.joysticks id ≠ 0 then (id, s3)
        else (id, s3.log Call.SDL_GetError)
      else (id, s2)

/-- The function `driver_joyGetDevCaps`; the arguments `lpCaps` and `dwSize`
are not used by the body and are left out.  The result is the status and the
storage afterwards. -/
def driver_joyGetDevCaps (L : Layout) (E : Env) (s : State) (dwDevID : Nat) :
    Except Fault (Nat × State) :=
  match JSTCK_drvGet L s dwDevID with
  | .error f => .error f
  | .ok jstck =>
    if jstck = 0 then .ok (MMSYSERR_NODRIVER, s)
    else
      match slotAt L jstck with
      | none => .error (Fault.wildAccess jstck)
      | some i =>
        if (JSTCK_OpenDevice E s i).1 < 0 then
          .ok (JOYERR_PARMS, (JSTCK_OpenDevice E s i).2)
        else .ok (JOYERR_NOERROR, (JSTCK_OpenDevice E s i).2)

/-- The function `driver_joyGetPosEx`: its body is the single statement
`return JOYERR_NOERROR;`.  The argument `lpInfo` is not used and is left
out. -/
def driver_joyGetPosEx (s : State) (_dwDevID : Nat) : Nat × State :=
  (JOYERR_NOERROR, s)

/-- The storage after a successful `driver_close` on slot `i`. -/
def closed (s : State) (i : Fin MAXJOYSTICK) : State :=
  if (s.JSTCK_Data i).dev > 0 then
    ((s.setSlot i { s.JSTCK_Data i with in_use := 0 }).log
      (Call.SDL_GameControllerClose (s.joysticks (s.JSTCK_Data i).dev))).setSlot i
        { s.JSTCK_Data i with in_use := 0, dev := 0 }
  else s.setSlot i { s.JSTCK_Data i with in_use := 0 }

/-- A concrete layout: 4-byte `int` and `BOOL`, twelve of them followed by
`ABS_MAX + 1 = 64` bytes of `axesMap`, so `sizeof(WINE_JSTCK) = 112`; the
array at address `0x7f0000001000`. -/
def layout0 : Layout := { base := 0x7f0000001000, size := 112 }

/-- An address `2 ^ 32` elements past the start of `JSTCK_Data` under
`layout0`: it lies far outside the 31-element array. -/
def wildHandle : Nat := layout0.base + 2 ^ 32 * layout0.size

/-- The storage after `driver_open(0)` on the zero-initialised storage. -/
def stateOpen0 : State := (driver_open layout0 State.zero 0).2

/-- An outside world in which the tick count is `t` and every probe succeeds:
`SDL_IsGameController` is true and `SDL_GameControllerOpen` returns the
non-`NULL` controller `0x5000`. -/
def envProbeOk (t : Nat) : Env :=
  { GetTickCount := t
    SDL_IsGameController := fun _ => true
    SDL_GameControllerOpen := fun _ => 0x5000 }

/-- An outside world in which the tick count is `t` and no game controller is
present. -/
def envNoDevice (t : Nat) : Env :=
  { GetTickCount := t
    SDL_IsGameController := fun _ => false
    SDL_GameControllerOpen := fun _ => 0 }

/-- Slot 0 of `JSTCK_Data`. -/
def slot0 : Fin MAXJOYSTICK := ⟨0, by decide⟩

/-- The storage `stateOpen0` with the `id` of slot 0 set to 0, the index of
the first SDL game controller. -/
def stateId0 : State :=
  stateOpen0.setSlot slot0 { stateOpen0.JSTCK_Data slot0 with id := 0 }

/-- The storage after `driver_open(0)` and then `driver_close` on its handle,
starting from the zero-initialised storage. -/
def stateClosed0 : State := closed stateOpen0 slot0

/-- The storage `stateOpen0` with the last probe attempt 100 ticks before the
32-bit tick counter wraps. -/
def stateBeforeWrap : State := { stateOpen0 with last_attempt := 2 ^ 32 - 100 }

/-- One call of a run: `driver_open(dwIntf)` or `driver_close(dwDevID)`. -/
inductive OpenClose where
  | open_ (dwIntf : Nat)
  | close (dwDevID : Nat)
deriving DecidableEq, Repr

/-- One call made on the storage `s`: its return value and the storage after. -/
def stepOpenClose (L : Layout) (s : State) : OpenClose → Except Fault (Nat × State)
  | .open_ dwIntf => .ok (driver_open L s dwIntf)
  | .close dwDevID => driver_close L s dwDevID

/-- The calls of a list made one after the other, starting on the storage `s`:
the list of their return values and the storage at the end.  A run stops at a
`Fault`. -/
def runOpenClose (L : Layout) (s : State) :
    List OpenClose → Except Fault (List Nat × State)
  | [] => .ok ([], s)
  | c :: cs =>
    match stepOpenClose L s c with
    | .error f => .error f
    | .ok (r, s1) =>
      match runOpenClose L s1 cs with
      | .error f => .error f
      | .ok (rs, s2) => .ok (r :: rs, s2)

/-! ## Runs of all three entry points -/

/-- One call of a run: `driver_open(dwIntf)`, `driver_close(dwDevID)`, or
`driver_joyGetDevCaps(dwDevID)` together with what the outside world answers
during that call. -/
inductive DriverCall where
  | open_ (dwIntf : Nat)
  | close (dwDevID : Nat)
  | getDevCaps (E : Env) (dwDevID : Nat)

/-- One call made on the storage `s`: its return value and the storage after. -/
def stepDriver (L : Layout) (s : State) : DriverCall → Except Fault (Nat × State)
  | .open_ dwIntf => .ok (driver_open L s dwIntf)
  | .close dwDevID => driver_close L s dwDevID
  | .getDevCaps E dwDevID => driver_joyGetDevCaps L E s dwDevID

/-- The calls of a list made one after the other, starting on the storage `s`:
the list of their return values and the storage at the end.  A run stops at a
`Fault`. -/
def runDriver (L : Layout) (s : State) :
    List DriverCall → Except Fault (List Nat × State)
  | [] => .ok ([], s)
  | c :: cs =>
    match stepDriver L s c with
    | .error f => .error f
    | .ok (r, s1) =>
      match runDriver L s1 cs with
      | .error f => .error f
      | .ok (rs, s2) => .ok (r :: rs, s2)

/-- The invariant of the slot table: every slot in use carries its own index
in `joyIntf` and has `id = -1`. -/
def tableInv (s : State) : Prop :=
  ∀ i : Fin MAXJOYSTICK, (s.JSTCK_Data i).in_use ≠ 0 →
    (s.JSTCK_Data i).joyIntf = (i.val : Int) ∧ (s.JSTCK_Data i).id = -1

/-! ## Addresses and slots -/

theorem MAXJOYSTICK_eq : MAXJOYSTICK = 31 := rfl

theorem addr_injective (L : Layout) (hL : L.wf) {i j : Nat}
    (h : L.addr i = L.addr j) : i = j := by
  unfold Layout.addr at h
  have hs : 0 < L.size := hL.2.1
  have h2 : i * L.size = j * L.size := by omega
  exact Nat.eq_of_mul_eq_mul_right hs h2

theorem addr_lt (L : Layout) (hL : L.wf) (i : Fin MAXJOYSTICK) :
    L.addr i.val < 2 ^ 64 := by
  unfold Layout.addr
  have h1 : L.base + MAXJOYSTICK * L.size ≤ 2 ^ 64 := hL.2.2
  have hs : 0 < L.size := hL.2.1
  have h2 : (i.val + 1) * L.size ≤ MAXJOYSTICK * L.size :=
    Nat.mul_le_mul_right _ i.isLt
  have h3 : (i.val + 1) * L.size = i.val * L.size + L.size := by ring
  omega

theorem addr_pos (L : Layout) (hL : L.wf) (i : Nat) : L.addr i ≠ 0 := by
  unfold Layout.addr
  have : 0 < L.base := hL.1
  omega

theorem slotAt_some {L : Layout} {a : Nat} {i : Fin MAXJOYSTICK}
    (h : slotAt L a = some i) : L.addr i.val = a := by
  unfold slotAt at h
  have := List.find?_some h
  simpa using this

theorem slotAt_none {L : Layout} {a : Nat} (h : slotAt L a = none)
    (i : Fin MAXJOYSTICK) : L.addr i.val ≠ a := by
  unfold slotAt at h
  rw [List.find?_eq_none] at h
  have := h i (List.mem_finRange i)
  simpa using this

theorem slotAt_addr (L : Layout) (hL : L.wf) (i : Fin MAXJOYSTICK) :
    slotAt L (L.addr i.val) = some i := by
  cases h : slotAt L (L.addr i.val) with
  | none => exact absurd rfl (slotAt_none h i)
  | some j =>
    have := addr_injective L hL (slotAt_some h)
    rw [Fin.ext this]

/-! ## Pointer arithmetic of `JSTCK_drvGet` at a table address -/

theorem subPtr_addr (L : Layout) (hL : L.wf) (i : Fin MAXJOYSTICK) :
    subPtr (L.addr i.val) L.base = i.val * L.size := by
  have h1 := addr_lt L hL i
  have hb : L.base < 2 ^ 64 := by
    have := hL.2.2; have := hL.2.1; unfold MAXJOYSTICK JOYSTICKID2 at *; omega
  unfold subPtr
  rw [Nat.mod_eq_of_lt h1, Nat.mod_eq_of_lt hb]
  unfold Layout.addr at *
  have : L.base + i.val * L.size + 2 ^ 64 - L.base = i.val * L.size + 2 ^ 64 := by omega
  rw [this, Nat.add_mod_right]
  apply Nat.mod_eq_of_lt
  omega

theorem toInt32_small (n : Nat) (h : n < 2 ^ 31) : toInt32 n = (n : Int) := by
  unfold toInt32
  have : n % 2 ^ 32 = n := Nat.mod_eq_of_lt (by omega)
  rw [this, if_pos h]

/-- At the address of slot `i`, `JSTCK_drvGet` reads the slot's `in_use`. -/
theorem JSTCK_drvGet_addr (L : Layout) (hL : L.wf) (s : State)
    (i : Fin MAXJOYSTICK) :
    JSTCK_drvGet L s (L.addr i.val) =
      if (s.JSTCK_Data i).in_use = 0 then .ok 0 else .ok (L.addr i.val) := by
  have hs : 0 < L.size := hL.2.1
  have hi : i.val < 31 := i.isLt
  unfold JSTCK_drvGet
  rw [subPtr_addr L hL i, Nat.mul_mod_left, Nat.mul_div_cancel _ hs,
    toInt32_small _ (by omega), slotAt_addr L hL i]
  have hm : ((MAXJOYSTICK : Nat) : Int) = 31 := rfl
  have h1 : ¬ ((i.val : Int) < 0 ∨ (i.val : Int) ≥ (MAXJOYSTICK : Int)) := by
    omega
  simp [h1]

/-- A non-`NULL` result of `JSTCK_drvGet` is the argument itself, and the
argument is the address of a slot whose `in_use` is set. -/
theorem JSTCK_drvGet_accepted (L : Layout) (s : State) (dwDevID p : Nat)
    (h : JSTCK_drvGet L s dwDevID = .ok p) (hp : p ≠ 0) :
    p = dwDevID ∧ ∃ i : Fin MAXJOYSTICK, slotAt L dwDevID = some i ∧
      (s.JSTCK_Data i).in_use ≠ 0 := by
  unfold JSTCK_drvGet at h
  dsimp only at h
  split_ifs at h with h1 h2
  · cases h; exact absurd rfl hp
  · cases h; exact absurd rfl hp
  · cases hsl : slotAt L dwDevID with
    | none => rw [hsl] at h; cases h
    | some i =>
      rw [hsl] at h
      simp only at h
      split_ifs at h with h3
      · cases h; exact absurd rfl hp
      · cases h
        exact ⟨rfl, i, rfl, h3⟩

/-- Acceptance by `JSTCK_drvGet`: a non-`NULL` result is returned exactly for
the address of a slot whose `in_use` is set, and the result is that address. -/
theorem JSTCK_drvGet_accepts_iff (L : Layout) (hL : L.wf) (s : State)
    (dwDevID p : Nat) :
    (JSTCK_drvGet L s dwDevID = .ok p ∧ p ≠ 0) ↔
      ∃ i : Fin MAXJOYSTICK, dwDevID = L.addr i.val ∧
        (s.JSTCK_Data i).in_use ≠ 0 ∧ p = dwDevID := by
  constructor
  · rintro ⟨h, hp⟩
    obtain ⟨e, i, hsl, hu⟩ := JSTCK_drvGet_accepted L s dwDevID p h hp
    exact ⟨i, (slotAt_some hsl).symm, hu, e⟩
  · rintro ⟨i, rfl, hu, rfl⟩
    rw [JSTCK_drvGet_addr L hL s i, if_neg hu]
    exact ⟨rfl, addr_pos L hL _⟩

/-! ## What `driver_open` and `driver_close` do -/

theorem driver_open_free (L : Layout) (s : State) (i : Fin MAXJOYSTICK)
    (h : (s.JSTCK_Data i).in_use = 0) :
    driver_open L s i.val =
      (L.addr i.val,
        s.setSlot i { s.JSTCK_Data i with
          joyIntf := (i.val : Int), id := -1, in_use := 1 }) := by
  unfold driver_open
  rw [dif_pos i.isLt]
  simp [h]

theorem driver_open_busy (L : Layout) (s : State) (i : Fin MAXJOYSTICK)
    (h : (s.JSTCK_Data i).in_use ≠ 0) : driver_open L s i.val = (0, s) := by
  unfold driver_open
  rw [dif_pos i.isLt]
  simp [h]

theorem driver_open_range (L : Layout) (s : State) (n : Nat)
    (h : MAXJOYSTICK ≤ n) : driver_open L s n = (0, s) := by
  unfold driver_open
  rw [dif_neg (by omega)]

/-- What `driver_close` does on a handle `JSTCK_drvGet` accepts. -/
theorem driver_close_accepted_eq (L : Layout) (s : State) (dwDevID : Nat)
    (i : Fin MAXJOYSTICK) (hne : dwDevID ≠ 0)
    (hget : JSTCK_drvGet L s dwDevID = .ok dwDevID)
    (hslot : slotAt L dwDevID = some i) :
    driver_close L s dwDevID =
      if (s.JSTCK_Data i).dev < (MAXJOYSTICK : Int) then .ok (1, closed s i)
      else .error (Fault.joysticksIndex (s.JSTCK_Data i).dev) := by
  have hm : ((MAXJOYSTICK : Nat) : Int) = 31 := rfl
  unfold driver_close closed
  rw [hget]
  simp only [hne, if_false, hslot]
  by_cases hd : (s.JSTCK_Data i).dev > 0
  · by_cases hb : (s.JSTCK_Data i).dev < (MAXJOYSTICK : Int)
    · simp [State.setSlot, State.log, hd, hb]
    · simp [State.setSlot, hd, hb]
  · have hb : (s.JSTCK_Data i).dev < (MAXJOYSTICK : Int) := by omega
    simp [State.setSlot, hd, hb]

theorem driver_close_accepted (L : Layout) (s : State) (dwDevID : Nat)
    (i : Fin MAXJOYSTICK) (hne : dwDevID ≠ 0)
    (hget : JSTCK_drvGet L s dwDevID = .ok dwDevID)
    (hslot : slotAt L dwDevID = some i)
    (hdev : (s.JSTCK_Data i).dev < (MAXJOYSTICK : Int)) :
    driver_close L s dwDevID = .ok (1, closed s i) := by
  rw [driver_close_accepted_eq L s dwDevID i hne hget hslot, if_pos hdev]

theorem driver_close_rejected (L : Layout) (s : State) (dwDevID : Nat)
    (hget : JSTCK_drvGet L s dwDevID = .ok 0) :
    driver_close L s dwDevID = .ok (0, s) := by
  unfold driver_close
  rw [hget]
  simp

theorem driver_close_addr (L : Layout) (hL : L.wf) (s : State)
    (i : Fin MAXJOYSTICK) (h : (s.JSTCK_Data i).in_use ≠ 0)
    (hdev : (s.JSTCK_Data i).dev < (MAXJOYSTICK : Int)) :
    driver_close L s (L.addr i.val) = .ok (1, closed s i) := by
  apply driver_close_accepted L s _ i (addr_pos L hL _) _ (slotAt_addr L hL i) hdev
  rw [JSTCK_drvGet_addr L hL s i, if_neg h]

theorem closed_in_use (s : State) (i : Fin MAXJOYSTICK) :
    ((closed s i).JSTCK_Data i).in_use = 0 := by
  unfold closed
  split_ifs <;> simp [State.setSlot, State.log]

theorem closed_other (s : State) (i k : Fin MAXJOYSTICK) (hk : k ≠ i) :
    (closed s i).JSTCK_Data k = s.JSTCK_Data k := by
  unfold closed
  split_ifs <;> simp [State.setSlot, State.log, hk]

/-! ## The `in_use` flag along a run -/

theorem driver_open_keeps_busy (L : Layout) (s : State) (n : Nat)
    (i : Fin MAXJOYSTICK) (h : (s.JSTCK_Data i).in_use ≠ 0) :
    ((driver_open L s n).2.JSTCK_Data i).in_use ≠ 0 := by
  unfold driver_open
  split_ifs with h1 h2
  · exact h
  · by_cases e : (⟨n, h1⟩ : Fin MAXJOYSTICK) = i
    · subst e; simp [State.setSlot]
    · simp [State.setSlot, Function.update_noteq (Ne.symm e), h]
  · exact h

theorem driver_open_keeps_free (L : Layout) (s : State) (n : Nat)
    (i : Fin MAXJOYSTICK) (hn : n ≠ i.val) (h : (s.JSTCK_Data i).in_use = 0) :
    ((driver_open L s n).2.JSTCK_Data i).in_use = 0 := by
  unfold driver_open
  split_ifs with h1 h2
  · exact h
  · have e : i ≠ (⟨n, h1⟩ : Fin MAXJOYSTICK) := by
      intro e; apply hn; rw [e]
    simp [State.setSlot, Function.update_noteq e, h]
  · exact h

/-- The two ways in which `driver_close` returns. -/
theorem driver_close_cases (L : Layout) (s s1 : State) (dwDevID r : Nat)
    (h : driver_close L s dwDevID = .ok (r, s1)) :
    (r = 0 ∧ s1 = s) ∨
    (∃ k : Fin MAXJOYSTICK, slotAt L dwDevID = some k ∧ r = 1 ∧ s1 = closed s k) := by
  cases hg : JSTCK_drvGet L s dwDevID with
  | error f =>
    unfold driver_close at h
    rw [hg] at h
    cases h
  | ok p =>
    by_cases hp : p = 0
    · subst hp
      rw [driver_close_rejected L s dwDevID hg] at h
      cases h
      exact Or.inl ⟨rfl, rfl⟩
    · obtain ⟨rfl, k, hsl, -⟩ := JSTCK_drvGet_accepted L s dwDevID p hg hp
      rw [driver_close_accepted_eq L s p k hp hg hsl] at h
      split_ifs at h
      cases h
      exact Or.inr ⟨k, hsl, rfl, rfl⟩

theorem runOpenClose_cons (L : Layout) (s s2 : State) (c : OpenClose)
    (cs : List OpenClose) (rs : List Nat)
    (h : runOpenClose L s (c :: cs) = .ok (rs, s2)) :
    ∃ (r : Nat) (s1 : State) (rs1 : List Nat),
      stepOpenClose L s c = .ok (r, s1) ∧
      runOpenClose L s1 cs = .ok (rs1, s2) ∧ rs = r :: rs1 := by
  unfold runOpenClose at h
  cases h1 : stepOpenClose L s c with
  | error f => rw [h1] at h; cases h
  | ok x =>
    obtain ⟨r, s1⟩ := x
    rw [h1] at h
    simp only at h
    cases h2 : runOpenClose L s1 cs with
    | error f => rw [h2] at h; cases h
    | ok y =>
      obtain ⟨rs1, s3⟩ := y
      rw [h2] at h
      simp only at h
      cases h
      exact ⟨r, s1, rs1, rfl, h2, rfl⟩

/-- A slot in use stays in use along a run in which no `driver_close` on its
handle returns 1. -/
theorem run_keeps_busy (L : Layout) (i : Fin MAXJOYSTICK) :
    ∀ (cs : List OpenClose) (s s2 : State) (rs : List Nat),
      (s.JSTCK_Data i).in_use ≠ 0 →
      runOpenClose L s cs = .ok (rs, s2) →
      (∀ r : Nat, (OpenClose.close (L.addr i.val), r) ∈ cs.zip rs → r = 0) →
      (s2.JSTCK_Data i).in_use ≠ 0 := by
  intro cs
  induction cs with
  | nil =>
    intro s s2 rs hu hrun _
    unfold runOpenClose at hrun
    cases hrun
    exact hu
  | cons c cs ih =>
    intro s s2 rs hu hrun hno
    obtain ⟨r, s1, rs1, hstep, hrest, rfl⟩ := runOpenClose_cons L s s2 c cs rs hrun
    have hno1 : ∀ r1 : Nat,
        (OpenClose.close (L.addr i.val), r1) ∈ cs.zip rs1 → r1 = 0 := by
      intro r1 hm
      apply hno r1
      rw [List.zip_cons_cons]
      exact List.mem_cons_of_mem _ hm
    apply ih s1 s2 rs1 _ hrest hno1
    cases c with
    | open_ n =>
      simp only [stepOpenClose, Except.ok.injEq] at hstep
      have e2 : s1 = (driver_open L s n).2 := by rw [hstep]
      rw [e2]
      exact driver_open_keeps_busy L s n i hu
    | close d =>
      unfold stepOpenClose at hstep
      rcases driver_close_cases L s s1 d r hstep with ⟨-, rfl⟩ | ⟨k, hsl, rfl, rfl⟩
      · exact hu
      · by_cases e : k = i
        · subst e
          have hd : L.addr k.val = d := slotAt_some hsl
          have := hno 1 (by rw [List.zip_cons_cons, hd]; exact List.mem_cons_self _ _)
          exact absurd this (by decide)
        · rw [closed_other s k i (Ne.symm e)]
          exact hu

/-- A free slot stays free along a run without a `driver_open` of its index. -/
theorem run_keeps_free (L : Layout) (i : Fin MAXJOYSTICK) :
    ∀ (cs : List OpenClose) (s s2 : State) (rs : List Nat),
      (s.JSTCK_Data i).in_use = 0 →
      runOpenClose L s cs = .ok (rs, s2) →
      OpenClose.open_ i.val ∉ cs →
      (s2.JSTCK_Data i).in_use = 0 := by
  intro cs
  induction cs with
  | nil =>
    intro s s2 rs hu hrun _
    unfold runOpenClose at hrun
    cases hrun
    exact hu
  | cons c cs ih =>
    intro s s2 rs hu hrun hno
    obtain ⟨r, s1, rs1, hstep, hrest, rfl⟩ := runOpenClose_cons L s s2 c cs rs hrun
    apply ih s1 s2 rs1 _ hrest (fun hm => hno (List.mem_cons_of_mem _ hm))
    cases c with
    | open_ n =>
      simp only [stepOpenClose, Except.ok.injEq] at hstep
      have e2 : s1 = (driver_open L s n).2 := by rw [hstep]
      rw [e2]
      apply driver_open_keeps_free L s n i _ hu
      rintro rfl
      exact hno (List.mem_cons_self _ _)
    | close d =>
      unfold stepOpenClose at hstep
      rcases driver_close_cases L s s1 d r hstep with ⟨-, rfl⟩ | ⟨k, -, rfl, rfl⟩
      · exact hu
      · by_cases e : k = i
        · subst e
          exact closed_in_use s k
        · rw [closed_other s k i (Ne.symm e)]
          exact hu

/-! ## The probe `JSTCK_OpenDevice` -/

/-- No path of `JSTCK_OpenDevice` assigns to a field of a slot. -/
theorem JSTCK_OpenDevice_table (E : Env) (s : State) (jstick : Fin MAXJOYSTICK) :
    (JSTCK_OpenDevice E s jstick).2.JSTCK_Data = s.JSTCK_Data := by
  unfold JSTCK_OpenDevice
  dsimp only
  split_ifs <;> rfl

/-- The throttled path: the tick count is read and nothing else happens. -/
theorem JSTCK_OpenDevice_throttled (E : Env) (s : State)
    (jstick : Fin MAXJOYSTICK) (hid : (s.JSTCK_Data jstick).id ≤ 0)
    (ht : subDword (E.GetTickCount % 2 ^ 32) s.last_attempt < 2000) :
    JSTCK_OpenDevice E s jstick = (-1, s.log Call.GetTickCount) := by
  unfold JSTCK_OpenDevice
  dsimp only
  rw [if_neg (by omega)]
  have : (s.log Call.GetTickCount).last_attempt = s.last_attempt := rfl
  rw [this, if_pos ht]

/-- The probing path: the tick count is read, stored in `last_attempt`, and
`SDL_IsGameController` is called on the slot's `id`. -/
theorem JSTCK_OpenDevice_probes (E : Env) (s : State)
    (jstick : Fin MAXJOYSTICK) (hid : (s.JSTCK_Data jstick).id ≤ 0)
    (ht : ¬ subDword (E.GetTickCount % 2 ^ 32) s.last_attempt < 2000) :
    (JSTCK_OpenDevice E s jstick).1 = (s.JSTCK_Data jstick).id ∧
    (JSTCK_OpenDevice E s jstick).2.last_attempt = E.GetTickCount % 2 ^ 32 ∧
    ∃ rest : List Call,
      (JSTCK_OpenDevice E s jstick).2.calls =
        s.calls ++ Call.GetTickCount ::
          Call.SDL_IsGameController (s.JSTCK_Data jstick).id :: rest := by
  unfold JSTCK_OpenDevice
  dsimp only
  rw [if_neg (by omega)]
  have : (s.log Call.GetTickCount).last_attempt = s.last_attempt := rfl
  rw [this, if_neg ht]
  split_ifs
  · exact ⟨rfl, rfl, [Call.SDL_GameControllerOpen (s.JSTCK_Data jstick).id],
      by simp [State.log]⟩
  · exact ⟨rfl, rfl, [Call.SDL_GameControllerOpen (s.JSTCK_Data jstick).id,
      Call.SDL_GetError], by simp [State.log]⟩
  · exact ⟨rfl, rfl, [], by simp [State.log]⟩

/-! ## The quotient that does not fit the `int` -/

/-- Under every layout whose element size is below `2 ^ 32` and whose address
space holds `2 ^ 32` elements after `base`, the address `2 ^ 32` elements past
`base` passes both tests of `JSTCK_drvGet` and is read through. -/
theorem JSTCK_drvGet_wild (L : Layout) (hL : L.wf)
    (hfit : L.base + 2 ^ 32 * L.size < 2 ^ 64) (s : State) :
    JSTCK_drvGet L s (L.base + 2 ^ 32 * L.size) =
      .error (Fault.wildAccess (L.base + 2 ^ 32 * L.size)) := by
  have hs : 0 < L.size := hL.2.1
  have hb : L.base < 2 ^ 64 := by omega
  have hsub : subPtr (L.base + 2 ^ 32 * L.size) L.base = 2 ^ 32 * L.size := by
    unfold subPtr
    rw [Nat.mod_eq_of_lt hfit, Nat.mod_eq_of_lt hb]
    have : L.base + 2 ^ 32 * L.size + 2 ^ 64 - L.base = 2 ^ 32 * L.size + 2 ^ 64 := by
      omega
    rw [this, Nat.add_mod_right]
    apply Nat.mod_eq_of_lt
    omega
  have hnone : slotAt L (L.base + 2 ^ 32 * L.size) = none := by
    cases h : slotAt L (L.base + 2 ^ 32 * L.size) with
    | none => rfl
    | some i =>
      have h1 := slotAt_some h
      unfold Layout.addr at h1
      have h2 : i.val * L.size = 2 ^ 32 * L.size := by omega
      have h3 := Nat.eq_of_mul_eq_mul_right hs h2
      have h4 : i.val < 31 := i.isLt
      omega
  unfold JSTCK_drvGet
  rw [hsub, Nat.mul_mod_left, Nat.mul_div_cancel _ hs, hnone]
  have h0 : toInt32 (2 ^ 32) = 0 := by decide
  have hm : ((MAXJOYSTICK : Nat) : Int) = 31 := rfl
  rw [h0]
  simp [hm]

/-! ## Claims -/

/-- C1 (the code breaks the claim): under `layout0` the 64-bit value
`wildHandle = base + 2 ^ 32 * sizeof(WINE_JSTCK)` is no address of an element
of `JSTCK_Data`, yet it passes the remainder test and, because the quotient
`2 ^ 32` becomes `p = 0` in the 32-bit `int`, the range test; `JSTCK_drvGet`
then reads `in_use` through it, outside the table, whatever the table holds. -/
theorem C1_wild_handle_is_dereferenced :
    wildHandle < 2 ^ 64 ∧
    (∀ i : Fin MAXJOYSTICK, layout0.addr i.val ≠ wildHandle) ∧
    subPtr wildHandle layout0.base % layout0.size = 0 ∧
    toInt32 (subPtr wildHandle layout0.base / layout0.size) = 0 ∧
    ∀ s : State, JSTCK_drvGet layout0 s wildHandle =
      .error (Fault.wildAccess wildHandle) := by
  refine ⟨by decide, by decide, by decide, by decide, ?_⟩
  intro s
  have h1 : subPtr wildHandle layout0.base % layout0.size = 0 := by decide
  have h2 : toInt32 (subPtr wildHandle layout0.base / layout0.size) = 0 := by decide
  have h3 : slotAt layout0 wildHandle = none := by decide
  unfold JSTCK_drvGet
  simp only [h1, h2, h3]
  decide

/-- C3: `driver_open(dwIntf)` returns 0 exactly when `dwIntf >= MAXJOYSTICK`
or slot `dwIntf` is already in use; when it returns 0 the whole storage is
unchanged; otherwise it returns the non-zero address of slot `dwIntf`. -/
theorem C3_driver_open_fails_iff (L : Layout) (hL : L.wf) (s : State)
    (dwIntf : Nat) :
    ((driver_open L s dwIntf).1 = 0 ↔
      (MAXJOYSTICK ≤ dwIntf ∨
        ∃ h : dwIntf < MAXJOYSTICK, (s.JSTCK_Data ⟨dwIntf, h⟩).in_use ≠ 0)) ∧
    ((driver_open L s dwIntf).1 = 0 → (driver_open L s dwIntf).2 = s) ∧
    ((driver_open L s dwIntf).1 ≠ 0 →
      (driver_open L s dwIntf).1 = L.addr dwIntf) := by
  by_cases hr : dwIntf < MAXJOYSTICK
  · by_cases hu : (s.JSTCK_Data ⟨dwIntf, hr⟩).in_use = 0
    · have e := driver_open_free L s ⟨dwIntf, hr⟩ hu
      simp only at e
      have hne := addr_pos L hL dwIntf
      rw [e]
      refine ⟨⟨fun h => absurd h hne, ?_⟩, fun h => absurd h hne, fun _ => rfl⟩
      rintro (h | ⟨_, h⟩)
      · omega
      · exact absurd hu h
    · have e := driver_open_busy L s ⟨dwIntf, hr⟩ hu
      simp only at e
      rw [e]
      exact ⟨⟨fun _ => Or.inr ⟨hr, hu⟩, fun _ => rfl⟩, fun _ => rfl,
        fun h => absurd rfl h⟩
  · have e := driver_open_range L s dwIntf (by omega)
    rw [e]
    exact ⟨⟨fun _ => Or.inl (by omega), fun _ => rfl⟩, fun _ => rfl,
      fun h => absurd rfl h⟩

/-- Witness of C3: index 31 on the zero-initialised storage. -/
theorem C3_driver_open_fails_iff_witness :
    layout0.wf ∧
    ((driver_open layout0 State.zero 31).1 = 0 ↔
      (MAXJOYSTICK ≤ 31 ∨
        ∃ h : 31 < MAXJOYSTICK, (State.zero.JSTCK_Data ⟨31, h⟩).in_use ≠ 0)) ∧
    ((driver_open layout0 State.zero 31).1 = 0 →
      (driver_open layout0 State.zero 31).2 = State.zero) ∧
    ((driver_open layout0 State.zero 31).1 ≠ 0 →
      (driver_open layout0 State.zero 31).1 = layout0.addr 31) :=
  ⟨by decide, C3_driver_open_fails_iff layout0 (by decide) State.zero 31⟩

/-- C4 (the code breaks the claim): `wildHandle` is the handle of no slot, so
it is not a valid handle in any storage, yet `driver_close` on it does not
return 0: through `JSTCK_drvGet` it reads `in_use` outside the table. -/
theorem C4_close_of_wild_handle :
    (∀ i : Fin MAXJOYSTICK, layout0.addr i.val ≠ wildHandle) ∧
    ∀ s : State, driver_close layout0 s wildHandle =
      .error (Fault.wildAccess wildHandle) := by
  refine ⟨by decide, ?_⟩
  intro s
  have h1 : subPtr wildHandle layout0.base % layout0.size = 0 := by decide
  have h2 : toInt32 (subPtr wildHandle layout0.base / layout0.size) = 0 := by decide
  have h3 : slotAt layout0 wildHandle = none := by decide
  have h4 : JSTCK_drvGet layout0 s wildHandle =
      .error (Fault.wildAccess wildHandle) := by
    unfold JSTCK_drvGet
    simp only [h1, h2, h3]
    decide
  unfold driver_close
  rw [h4]

/-- The part of C4 the code keeps: a second `driver_close` of the same handle,
right after a first one that has succeeded, returns 0 and changes nothing. -/
theorem driver_close_twice (L : Layout) (s s1 : State) (dwDevID : Nat)
    (h : driver_close L s dwDevID = .ok (1, s1)) :
    driver_close L s1 dwDevID = .ok (0, s1) := by
  have hget : ∃ p, JSTCK_drvGet L s dwDevID = .ok p ∧ p ≠ 0 := by
    unfold driver_close at h
    cases hg : JSTCK_drvGet L s dwDevID with
    | error f => rw [hg] at h; cases h
    | ok p =>
      refine ⟨p, rfl, ?_⟩
      rintro rfl
      rw [hg] at h
      simp at h
  obtain ⟨p, hg, hp⟩ := hget
  obtain ⟨rfl, i, hsl, -⟩ := JSTCK_drvGet_accepted L s dwDevID p hg hp
  rw [driver_close_accepted_eq L s p i hp hg hsl] at h
  split_ifs at h
  cases h
  apply driver_close_rejected
  have hc := closed_in_use s i
  unfold JSTCK_drvGet
  dsimp only
  have hg2 := hg
  unfold JSTCK_drvGet at hg2
  dsimp only at hg2
  split_ifs at hg2 with h1 h2
  · cases hg2; exact absurd rfl hp
  · cases hg2; exact absurd rfl hp
  · rw [if_neg h1, if_neg h2, hsl]
    simp [hc]

/-- C6: in a run of `driver_open`/`driver_close` calls from the
zero-initialised storage, after a successful `driver_open(i)` every
`driver_open(i)` returns 0 as long as no `driver_close` on the handle of slot
`i` has returned 1 (first part), and after such a `driver_close` has returned
1 the first `driver_open(i)` that follows succeeds (second part). -/
theorem C6_busy_until_closed (L : Layout) (hL : L.wf) (i : Fin MAXJOYSTICK)
    (pre : List OpenClose) (rs0 : List Nat) (s0 : State)
    (_hpre : runOpenClose L State.zero pre = .ok (rs0, s0))
    (hopen : (driver_open L s0 i.val).1 ≠ 0) :
    (∀ (mid : List OpenClose) (rs : List Nat) (s2 : State),
      runOpenClose L (driver_open L s0 i.val).2 mid = .ok (rs, s2) →
      (∀ r : Nat, (OpenClose.close (L.addr i.val), r) ∈ mid.zip rs → r = 0) →
      (driver_open L s2 i.val).1 = 0) ∧
    (∀ (mid aft : List OpenClose) (rs rs1 : List Nat) (s2 s3 s4 : State),
      runOpenClose L (driver_open L s0 i.val).2 mid = .ok (rs, s2) →
      driver_close L s2 (L.addr i.val) = .ok (1, s3) →
      runOpenClose L s3 aft = .ok (rs1, s4) →
      OpenClose.open_ i.val ∉ aft →
      (driver_open L s4 i.val).1 ≠ 0) := by
  have hbusy : ((driver_open L s0 i.val).2.JSTCK_Data i).in_use ≠ 0 := by
    by_cases hu : (s0.JSTCK_Data i).in_use = 0
    · rw [driver_open_free L s0 i hu]; simp [State.setSlot]
    · rw [driver_open_busy L s0 i hu] at hopen
      exact absurd rfl hopen
  constructor
  · intro mid rs s2 hrun hno
    have h2 := run_keeps_busy L i mid _ s2 rs hbusy hrun hno
    rw [driver_open_busy L s2 i h2]
  · intro mid aft rs rs1 s2 s3 s4 _ hclose hrun hno
    have h3 : (s3.JSTCK_Data i).in_use = 0 := by
      rcases driver_close_cases L s2 s3 _ 1 hclose with ⟨h, -⟩ | ⟨k, hsl, -, rfl⟩
      · exact absurd h (by decide)
      · rw [slotAt_addr L hL i] at hsl
        cases hsl
        exact closed_in_use s2 i
    have h4 := run_keeps_free L i aft s3 s4 rs1 h3 hrun hno
    rw [driver_open_free L s4 i h4]
    exact addr_pos L hL _

/-- Witness of C6: slot 0, opened first thing on the zero-initialised storage. -/
theorem C6_busy_until_closed_witness :
    layout0.wf ∧
    runOpenClose layout0 State.zero [] = .ok ([], State.zero) ∧
    (driver_open layout0 State.zero slot0.val).1 ≠ 0 ∧
    (∀ (mid : List OpenClose) (rs : List Nat) (s2 : State),
      runOpenClose layout0 (driver_open layout0 State.zero slot0.val).2 mid
        = .ok (rs, s2) →
      (∀ r : Nat,
        (OpenClose.close (layout0.addr slot0.val), r) ∈ mid.zip rs → r = 0) →
      (driver_open layout0 s2 slot0.val).1 = 0) ∧
    (∀ (mid aft : List OpenClose) (rs rs1 : List Nat) (s2 s3 s4 : State),
      runOpenClose layout0 (driver_open layout0 State.zero slot0.val).2 mid
        = .ok (rs, s2) →
      driver_close layout0 s2 (layout0.addr slot0.val) = .ok (1, s3) →
      runOpenClose layout0 s3 aft = .ok (rs1, s4) →
      OpenClose.open_ slot0.val ∉ aft →
      (driver_open layout0 s4 slot0.val).1 ≠ 0) :=
  ⟨by decide, rfl, by decide,
    C6_busy_until_closed layout0 (by decide) slot0 [] [] State.zero rfl
      (by decide)⟩

/-- Whenever `driver_close` returns, every slot other than the one at the
address `dwDevID` is as it was. -/
theorem driver_close_frame (L : Layout) (s s1 : State) (dwDevID r : Nat)
    (h : driver_close L s dwDevID = .ok (r, s1)) (k : Fin MAXJOYSTICK)
    (hk : slotAt L dwDevID ≠ some k) : s1.JSTCK_Data k = s.JSTCK_Data k := by
  rcases driver_close_cases L s s1 dwDevID r h with ⟨-, rfl⟩ | ⟨i, hsl, -, rfl⟩
  · rfl
  · apply closed_other
    rintro rfl
    exact hk hsl

/-- C8: when slot `i` is free, the value returned by `driver_open(i)` is not
`NULL`, is the address of slot `i`, is accepted by `JSTCK_drvGet` in the
storage `driver_open` leaves, and slot `i` then has `joyIntf = i`,
`in_use = TRUE` and `id = -1`. -/
theorem C8_open_then_validate (L : Layout) (hL : L.wf) (s : State)
    (i : Fin MAXJOYSTICK) (hfree : (s.JSTCK_Data i).in_use = 0) :
    (driver_open L s i.val).1 ≠ 0 ∧
    JSTCK_drvGet L (driver_open L s i.val).2 (driver_open L s i.val).1
      = .ok (driver_open L s i.val).1 ∧
    slotAt L (driver_open L s i.val).1 = some i ∧
    ((driver_open L s i.val).2.JSTCK_Data i).joyIntf = (i.val : Int) ∧
    ((driver_open L s i.val).2.JSTCK_Data i).in_use = 1 ∧
    ((driver_open L s i.val).2.JSTCK_Data i).id = -1 := by
  rw [driver_open_free L s i hfree]
  refine ⟨addr_pos L hL _, ?_, slotAt_addr L hL i, ?_, ?_, ?_⟩
  · simp only
    rw [JSTCK_drvGet_addr L hL _ i]
    simp [State.setSlot]
  all_goals simp [State.setSlot]

/-- Witness of C8: slot 5 of the zero-initialised storage. -/
theorem C8_open_then_validate_witness :
    layout0.wf ∧ (State.zero.JSTCK_Data ⟨5, by decide⟩).in_use = 0 ∧
    (driver_open layout0 State.zero 5).1 ≠ 0 ∧
    JSTCK_drvGet layout0 (driver_open layout0 State.zero 5).2
      (driver_open layout0 State.zero 5).1
      = .ok (driver_open layout0 State.zero 5).1 ∧
    slotAt layout0 (driver_open layout0 State.zero 5).1 = some ⟨5, by decide⟩ ∧
    ((driver_open layout0 State.zero 5).2.JSTCK_Data ⟨5, by decide⟩).joyIntf = 5 ∧
    ((driver_open layout0 State.zero 5).2.JSTCK_Data ⟨5, by decide⟩).in_use = 1 ∧
    ((driver_open layout0 State.zero 5).2.JSTCK_Data ⟨5, by decide⟩).id = -1 :=
  ⟨by decide, by decide,
    C8_open_then_validate layout0 (by decide) State.zero ⟨5, by decide⟩
      (by decide)⟩

/-- C9 (the code breaks the claim): slot 0 has just been opened (`id = -1`,
`last_attempt = 0`), the tick count is 5000 and the probe succeeds.
`JSTCK_OpenDevice` calls `SDL_IsGameController(-1)` and
`SDL_GameControllerOpen(-1)`, puts the controller in `joysticks[-1]`, leaves
the slot's `id` at `-1` and returns `-1`; the next call, at tick 7000, does
not take the fast path and probes again.  With `id = 0` in the slot
(`stateId0`) the first call returns 0 and leaves `id = 0`, and the next call,
at tick 5100, reads the tick count and returns `-1`, not 0. -/
theorem C9_successful_probe_is_not_stored :
    ((JSTCK_OpenDevice (envProbeOk 5000) stateOpen0 slot0).1 = -1 ∧
    ((JSTCK_OpenDevice (envProbeOk 5000) stateOpen0 slot0).2.JSTCK_Data slot0).id
      = -1 ∧
    (JSTCK_OpenDevice (envProbeOk 5000) stateOpen0 slot0).2.calls =
      [Call.GetTickCount, Call.SDL_IsGameController (-1),
        Call.SDL_GameControllerOpen (-1)] ∧
    (JSTCK_OpenDevice (envProbeOk 5000) stateOpen0 slot0).2.joysticks (-1)
      = 0x5000 ∧
    (JSTCK_OpenDevice (envProbeOk 7000)
        (JSTCK_OpenDevice (envProbeOk 5000) stateOpen0 slot0).2 slot0).1 = -1 ∧
    (JSTCK_OpenDevice (envProbeOk 7000)
        (JSTCK_OpenDevice (envProbeOk 5000) stateOpen0 slot0).2 slot0).2.calls =
      [Call.GetTickCount, Call.SDL_IsGameController (-1),
        Call.SDL_GameControllerOpen (-1),
        Call.GetTickCount, Call.SDL_IsGameController (-1),
        Call.SDL_GameControllerOpen (-1)]) ∧
    ((JSTCK_OpenDevice (envProbeOk 5000) stateId0 slot0).1 = 0 ∧
    ((JSTCK_OpenDevice (envProbeOk 5000) stateId0 slot0).2.JSTCK_Data slot0).id
      = 0 ∧
    (JSTCK_OpenDevice (envProbeOk 5000) stateId0 slot0).2.joysticks 0 = 0x5000 ∧
    (JSTCK_OpenDevice (envProbeOk 5100)
        (JSTCK_OpenDevice (envProbeOk 5000) stateId0 slot0).2 slot0).1 = -1 ∧
    (JSTCK_OpenDevice (envProbeOk 5100)
        (JSTCK_OpenDevice (envProbeOk 5000) stateId0 slot0).2 slot0).2.calls =
      [Call.GetTickCount, Call.SDL_IsGameController 0,
        Call.SDL_GameControllerOpen 0, Call.GetTickCount]) := by
  refine ⟨⟨by decide, by decide, by decide, by decide, by decide, by decide⟩,
    ⟨by decide, by decide, by decide, by decide, by decide⟩⟩

theorem driver_joyGetDevCaps_rejected (L : Layout) (E : Env) (s : State)
    (dwDevID : Nat) (hget : JSTCK_drvGet L s dwDevID = .ok 0) :
    driver_joyGetDevCaps L E s dwDevID = .ok (MMSYSERR_NODRIVER, s) := by
  unfold driver_joyGetDevCaps
  rw [hget]
  simp

theorem driver_joyGetDevCaps_accepted (L : Layout) (E : Env) (s : State)
    (dwDevID : Nat) (i : Fin MAXJOYSTICK) (hne : dwDevID ≠ 0)
    (hget : JSTCK_drvGet L s dwDevID = .ok dwDevID)
    (hslot : slotAt L dwDevID = some i) :
    driver_joyGetDevCaps L E s dwDevID =
      if (JSTCK_OpenDevice E s i).1 < 0 then
        .ok (JOYERR_PARMS, (JSTCK_OpenDevice E s i).2)
      else .ok (JOYERR_NOERROR, (JSTCK_OpenDevice E s i).2) := by
  unfold driver_joyGetDevCaps
  rw [hget]
  simp only [hne, if_false, hslot]

/-- C12 (the code breaks the claim): after `driver_open(0)` and `driver_close`
on its handle, `JSTCK_drvGet` rejects the handle and `driver_joyGetDevCaps`
returns `MMSYSERR_NODRIVER` for it, but `driver_joyGetPosEx` returns
`JOYERR_NOERROR`. -/
theorem C12_joyGetPosEx_ignores_the_handle :
    driver_close layout0 stateOpen0 (layout0.addr 0) = .ok (1, stateClosed0) ∧
    JSTCK_drvGet layout0 stateClosed0 (layout0.addr 0) = .ok 0 ∧
    driver_joyGetDevCaps layout0 (envNoDevice 5000) stateClosed0 (layout0.addr 0)
      = .ok (MMSYSERR_NODRIVER, stateClosed0) ∧
    (driver_joyGetPosEx stateClosed0 (layout0.addr 0)).1 = JOYERR_NOERROR ∧
    JOYERR_NOERROR ≠ MMSYSERR_NODRIVER := by
  have h1 : JSTCK_drvGet layout0 stateClosed0 (layout0.addr 0) = .ok 0 := by decide
  refine ⟨?_, h1, driver_joyGetDevCaps_rejected _ _ _ _ h1, rfl, by decide⟩
  exact driver_close_addr layout0 (by decide) stateOpen0 slot0 (by decide)
    (by decide)

/-- C13: `driver_open` leaves the controller table `joysticks`, the timestamp
`last_attempt` and the log of outside calls as they were (no tick count is
read, no SDL function is called), leaves every slot other than `dwIntf` as it
was, and in every slot changes at most the fields `joyIntf`, `id` and
`in_use`. -/
theorem C13_driver_open_frame (L : Layout) (s : State) (dwIntf : Nat) :
    (driver_open L s dwIntf).2.joysticks = s.joysticks ∧
    (driver_open L s dwIntf).2.last_attempt = s.last_attempt ∧
    (driver_open L s dwIntf).2.calls = s.calls ∧
    (∀ k : Fin MAXJOYSTICK, k.val ≠ dwIntf →
      (driver_open L s dwIntf).2.JSTCK_Data k = s.JSTCK_Data k) ∧
    (∀ k : Fin MAXJOYSTICK,
      (driver_open L s dwIntf).2.JSTCK_Data k =
        { s.JSTCK_Data k with
          joyIntf := ((driver_open L s dwIntf).2.JSTCK_Data k).joyIntf
          id := ((driver_open L s dwIntf).2.JSTCK_Data k).id
          in_use := ((driver_open L s dwIntf).2.JSTCK_Data k).in_use }) := by
  unfold driver_open
  split_ifs with h1 h2
  · exact ⟨rfl, rfl, rfl, fun _ _ => rfl, fun _ => rfl⟩
  · refine ⟨rfl, rfl, rfl, ?_, ?_⟩
    · intro k hk
      have e : k ≠ (⟨dwIntf, h1⟩ : Fin MAXJOYSTICK) := by
        intro e; apply hk; rw [e]
      simp [State.setSlot, Function.update_noteq e]
    · intro k
      by_cases e : k = (⟨dwIntf, h1⟩ : Fin MAXJOYSTICK)
      · subst e; simp [State.setSlot]
      · simp [State.setSlot, Function.update_noteq e]
  · exact ⟨rfl, rfl, rfl, fun _ _ => rfl, fun _ => rfl⟩

/-- C14: for a handle that `JSTCK_drvGet` rejects, `driver_joyGetDevCaps`
returns `MMSYSERR_NODRIVER` and the whole storage, the log of outside calls
included, is as before; for a handle that `JSTCK_drvGet` accepts and a
negative result of `JSTCK_OpenDevice` on its slot, it returns
`JOYERR_PARMS`. -/
theorem C14_getDevCaps_validates_first (L : Layout) (E : Env) (s : State)
    (dwDevID : Nat) :
    (JSTCK_drvGet L s dwDevID = .ok 0 →
      driver_joyGetDevCaps L E s dwDevID = .ok (MMSYSERR_NODRIVER, s)) ∧
    (∀ p : Nat, JSTCK_drvGet L s dwDevID = .ok p → p ≠ 0 →
      ∃ i : Fin MAXJOYSTICK, slotAt L dwDevID = some i ∧
        ((JSTCK_OpenDevice E s i).1 < 0 →
          driver_joyGetDevCaps L E s dwDevID =
            .ok (JOYERR_PARMS, (JSTCK_OpenDevice E s i).2))) := by
  refine ⟨driver_joyGetDevCaps_rejected L E s dwDevID, ?_⟩
  intro p hget hp
  obtain ⟨rfl, i, hsl, -⟩ := JSTCK_drvGet_accepted L s dwDevID p hget hp
  refine ⟨i, hsl, fun hneg => ?_⟩
  rw [driver_joyGetDevCaps_accepted L E s p i hp hget hsl, if_pos hneg]

/-- Witness of C14: the closed handle of slot 0 is rejected, the open handle of
slot 0 is accepted and the probe at tick 5000 finds no controller. -/
theorem C14_getDevCaps_validates_first_witness :
    (JSTCK_drvGet layout0 stateClosed0 (layout0.addr 0) = .ok 0 ∧
      driver_joyGetDevCaps layout0 (envNoDevice 5000) stateClosed0 (layout0.addr 0)
        = .ok (MMSYSERR_NODRIVER, stateClosed0)) ∧
    (JSTCK_drvGet layout0 stateOpen0 (layout0.addr 0) = .ok (layout0.addr 0) ∧
      layout0.addr 0 ≠ 0 ∧
      ∃ i : Fin MAXJOYSTICK, slotAt layout0 (layout0.addr 0) = some i ∧
        ((JSTCK_OpenDevice (envNoDevice 5000) stateOpen0 i).1 < 0 →
          driver_joyGetDevCaps layout0 (envNoDevice 5000) stateOpen0
              (layout0.addr 0) =
            .ok (JOYERR_PARMS,
              (JSTCK_OpenDevice (envNoDevice 5000) stateOpen0 i).2))) :=
  ⟨⟨by decide,
      (C14_getDevCaps_validates_first layout0 (envNoDevice 5000) stateClosed0
        (layout0.addr 0)).1 (by decide)⟩,
    ⟨by decide, by decide,
      (C14_getDevCaps_validates_first layout0 (envNoDevice 5000) stateOpen0
        (layout0.addr 0)).2 (layout0.addr 0) (by decide) (by decide)⟩⟩

theorem driver_open_dev (L : Layout) (s : State) (dwIntf : Nat)
    (i : Fin MAXJOYSTICK) :
    ((driver_open L s dwIntf).2.JSTCK_Data i).dev = (s.JSTCK_Data i).dev := by
  unfold driver_open
  split_ifs with h1 h2
  · rfl
  · by_cases e : i = (⟨dwIntf, h1⟩ : Fin MAXJOYSTICK)
    · subst e; simp [State.setSlot]
    · simp [State.setSlot, Function.update_noteq e]
  · rfl

theorem driver_open_last_attempt (L : Layout) (s : State) (dwIntf : Nat) :
    (driver_open L s dwIntf).2.last_attempt = s.last_attempt := by
  unfold driver_open
  split_ifs <;> rfl

/-! ## The throttle -/

/-- The `DWORD` difference of two 32-bit values is their integer difference
modulo `2 ^ 32`. -/
theorem subDword_eq_emod (a b : Nat) (ha : a < 2 ^ 32) (hb : b < 2 ^ 32) :
    ((subDword a b : Nat) : Int) = ((a : Int) - (b : Int)) % 2 ^ 32 := by
  unfold subDword
  rw [Nat.mod_eq_of_lt ha, Nat.mod_eq_of_lt hb]
  omega

/-- When the tick counter shows the true time modulo `2 ^ 32`, the `DWORD`
difference is the true elapsed time, as long as that is below `2 ^ 32`. -/
theorem subDword_elapsed (la e : Nat) (hla : la < 2 ^ 32) (he : e < 2 ^ 32) :
    subDword ((la + e) % 2 ^ 32) la = e := by
  unfold subDword
  rw [Nat.mod_mod, Nat.mod_eq_of_lt hla]
  omega

/-- Whether a call of `JSTCK_OpenDevice` on a slot with `id <= 0` is throttled
is decided by the `DWORD` difference alone. -/
theorem JSTCK_OpenDevice_throttled_iff (E : Env) (s : State)
    (jstick : Fin MAXJOYSTICK) (hid : (s.JSTCK_Data jstick).id ≤ 0) :
    JSTCK_OpenDevice E s jstick = (-1, s.log Call.GetTickCount) ↔
      subDword (E.GetTickCount % 2 ^ 32) s.last_attempt < 2000 := by
  constructor
  · intro h
    by_contra ht
    obtain ⟨-, -, rest, hc⟩ := JSTCK_OpenDevice_probes E s jstick hid ht
    rw [h] at hc
    simp [State.log] at hc
  · exact JSTCK_OpenDevice_throttled E s jstick hid

theorem closed_last_attempt (s : State) (i : Fin MAXJOYSTICK) :
    (closed s i).last_attempt = s.last_attempt := by
  unfold closed
  split_ifs <;> rfl

/-- A run of `driver_open`/`driver_close` calls does not touch `last_attempt`. -/
theorem run_keeps_last_attempt (L : Layout) :
    ∀ (cs : List OpenClose) (s s2 : State) (rs : List Nat),
      runOpenClose L s cs = .ok (rs, s2) → s2.last_attempt = s.last_attempt := by
  intro cs
  induction cs with
  | nil =>
    intro s s2 rs hrun
    unfold runOpenClose at hrun
    cases hrun
    rfl
  | cons c cs ih =>
    intro s s2 rs hrun
    obtain ⟨r, s1, rs1, hstep, hrest, rfl⟩ := runOpenClose_cons L s s2 c cs rs hrun
    rw [ih s1 s2 rs1 hrest]
    cases c with
    | open_ n =>
      simp only [stepOpenClose, Except.ok.injEq] at hstep
      have e2 : s1 = (driver_open L s n).2 := by rw [hstep]
      rw [e2]
      exact driver_open_last_attempt L s n
    | close d =>
      unfold stepOpenClose at hstep
      rcases driver_close_cases L s s1 d r hstep with ⟨-, rfl⟩ | ⟨k, -, rfl, rfl⟩
      · rfl
      · exact closed_last_attempt s k

/-- C16 (counterexample): `MAXJOYSTICK` is 31, not 32, and on the
zero-initialised storage `driver_open(31)` returns 0. -/
theorem C16_counterexample :
    ¬ (MAXJOYSTICK = 32) ∧ (driver_open layout0 State.zero 31).1 = 0 := by
  refine ⟨by decide, by decide⟩

/-- C16 (as amended): with `JOYSTICKID2 = 1` the table has
`MAXJOYSTICK = JOYSTICKID2 + 30 = 31` slots; on the zero-initialised storage
`driver_open(i)` succeeds for every `i` in `0..30` and returns 0 for every
`i >= 31`. -/
theorem C16_table_has_31_slots (L : Layout) (hL : L.wf) :
    JOYSTICKID2 = 1 ∧ MAXJOYSTICK = 31 ∧
    (∀ i : Nat, i < 31 → (driver_open L State.zero i).1 ≠ 0) ∧
    (∀ i : Nat, 31 ≤ i → (driver_open L State.zero i).1 = 0) := by
  refine ⟨rfl, rfl, ?_, ?_⟩
  · intro i hi
    have e := driver_open_free L State.zero ⟨i, hi⟩ rfl
    simp only at e
    rw [e]
    exact addr_pos L hL i
  · intro i hi
    rw [driver_open_range L State.zero i hi]

/-- Witness of C16 as amended: the layout `layout0`. -/
theorem C16_table_has_31_slots_witness :
    layout0.wf ∧
    JOYSTICKID2 = 1 ∧ MAXJOYSTICK = 31 ∧
    (∀ i : Nat, i < 31 → (driver_open layout0 State.zero i).1 ≠ 0) ∧
    (∀ i : Nat, 31 ≤ i → (driver_open layout0 State.zero i).1 = 0) :=
  ⟨by decide, C16_table_has_31_slots layout0 (by decide)⟩

/-! ## The table invariant along a run of all three entry points -/

theorem tableInv_zero : tableInv State.zero := by
  intro i h
  exact absurd rfl h

theorem tableInv_open (L : Layout) (s : State) (n : Nat) (h : tableInv s) :
    tableInv (driver_open L s n).2 := by
  unfold driver_open
  split_ifs with h1 h2
  · exact h
  · intro i hi
    by_cases e : i = (⟨n, h1⟩ : Fin MAXJOYSTICK)
    · subst e; simp [State.setSlot]
    · simp only [State.setSlot, Function.update_noteq e] at hi ⊢
      exact h i hi
  · exact h

theorem tableInv_closed (s : State) (k : Fin MAXJOYSTICK) (h : tableInv s) :
    tableInv (closed s k) := by
  intro i hi
  by_cases e : i = k
  · subst e
    exact absurd (closed_in_use s i) hi
  · rw [closed_other s k i e] at hi ⊢
    exact h i hi

theorem tableInv_of_table_eq (s s1 : State) (e : s1.JSTCK_Data = s.JSTCK_Data)
    (h : tableInv s) : tableInv s1 := by
  intro i hi
  rw [e] at hi ⊢
  exact h i hi

/-- With a negative `id` in the slot, `JSTCK_OpenDevice` returns a negative
value on every path. -/
theorem JSTCK_OpenDevice_neg (E : Env) (s : State) (jstick : Fin MAXJOYSTICK)
    (hid : (s.JSTCK_Data jstick).id < 0) : (JSTCK_OpenDevice E s jstick).1 < 0 := by
  unfold JSTCK_OpenDevice
  dsimp only
  split_ifs
  · omega
  · show (-1 : Int) < 0
    omega
  · exact hid
  · exact hid
  · exact hid

/-- The ways in which `driver_joyGetDevCaps` returns. -/
theorem driver_joyGetDevCaps_cases (L : Layout) (E : Env) (s s1 : State)
    (dwDevID r : Nat) (h : driver_joyGetDevCaps L E s dwDevID = .ok (r, s1)) :
    (JSTCK_drvGet L s dwDevID = .ok 0 ∧ r = MMSYSERR_NODRIVER ∧ s1 = s) ∨
    (∃ i : Fin MAXJOYSTICK, JSTCK_drvGet L s dwDevID = .ok dwDevID ∧
      dwDevID ≠ 0 ∧ slotAt L dwDevID = some i ∧
      (s.JSTCK_Data i).in_use ≠ 0 ∧ s1 = (JSTCK_OpenDevice E s i).2 ∧
      (r = JOYERR_PARMS ∧ (JSTCK_OpenDevice E s i).1 < 0 ∨
        r = JOYERR_NOERROR ∧ ¬ (JSTCK_OpenDevice E s i).1 < 0)) := by
  cases hg : JSTCK_drvGet L s dwDevID with
  | error f =>
    unfold driver_joyGetDevCaps at h
    rw [hg] at h
    cases h
  | ok p =>
    by_cases hp : p = 0
    · subst hp
      rw [driver_joyGetDevCaps_rejected L E s dwDevID hg] at h
      cases h
      exact Or.inl ⟨rfl, rfl, rfl⟩
    · obtain ⟨rfl, i, hsl, hu⟩ := JSTCK_drvGet_accepted L s dwDevID p hg hp
      rw [driver_joyGetDevCaps_accepted L E s p i hp hg hsl] at h
      right
      refine ⟨i, rfl, hp, hsl, hu, ?_⟩
      split_ifs at h with hneg
      · cases h
        exact ⟨rfl, Or.inl ⟨rfl, hneg⟩⟩
      · cases h
        exact ⟨rfl, Or.inr ⟨rfl, hneg⟩⟩

theorem runDriver_cons (L : Layout) (s s2 : State) (c : DriverCall)
    (cs : List DriverCall) (rs : List Nat)
    (h : runDriver L s (c :: cs) = .ok (rs, s2)) :
    ∃ (r : Nat) (s1 : State) (rs1 : List Nat),
      stepDriver L s c = .ok (r, s1) ∧
      runDriver L s1 cs = .ok (rs1, s2) ∧ rs = r :: rs1 := by
  unfold runDriver at h
  cases h1 : stepDriver L s c with
  | error f => rw [h1] at h; cases h
  | ok x =>
    obtain ⟨r, s1⟩ := x
    rw [h1] at h
    simp only at h
    cases h2 : runDriver L s1 cs with
    | error f => rw [h2] at h; cases h
    | ok y =>
      obtain ⟨rs1, s3⟩ := y
      rw [h2] at h
      simp only at h
      cases h
      exact ⟨r, s1, rs1, rfl, h2, rfl⟩

theorem tableInv_step (L : Layout) (s s1 : State) (c : DriverCall) (r : Nat)
    (hstep : stepDriver L s c = .ok (r, s1)) (h : tableInv s) : tableInv s1 := by
  cases c with
  | open_ n =>
    simp only [stepDriver, Except.ok.injEq] at hstep
    have e2 : s1 = (driver_open L s n).2 := by rw [hstep]
    rw [e2]
    exact tableInv_open L s n h
  | close d =>
    unfold stepDriver at hstep
    rcases driver_close_cases L s s1 d r hstep with ⟨-, rfl⟩ | ⟨k, -, -, rfl⟩
    · exact h
    · exact tableInv_closed s k h
  | getDevCaps E d =>
    unfold stepDriver at hstep
    rcases driver_joyGetDevCaps_cases L E s s1 d r hstep with
      ⟨-, -, rfl⟩ | ⟨i, -, -, -, -, rfl, -⟩
    · exact h
    · exact tableInv_of_table_eq s _ (JSTCK_OpenDevice_table E s i) h

theorem tableInv_run (L : Layout) :
    ∀ (cs : List DriverCall) (s s2 : State) (rs : List Nat),
      tableInv s → runDriver L s cs = .ok (rs, s2) → tableInv s2 := by
  intro cs
  induction cs with
  | nil =>
    intro s s2 rs h hrun
    unfold runDriver at hrun
    cases hrun
    exact h
  | cons c cs ih =>
    intro s s2 rs h hrun
    obtain ⟨r, s1, rs1, hstep, hrest, -⟩ := runDriver_cons L s s2 c cs rs hrun
    exact ih s1 s2 rs1 (tableInv_step L s s1 c r hstep h) hrest

/-- The part of C17 the code keeps: in every storage `s` reached from the
zero-initialised storage by a run of `driver_open`, `driver_close` and
`driver_joyGetDevCaps` calls that stays inside the objects of the file, with
any answers of the backend and any tick counts, every slot in use has
`joyIntf` equal to its index and `id = -1`; `driver_joyGetDevCaps` on `s`
returns `MMSYSERR_NODRIVER` for a handle `JSTCK_drvGet` rejects and
`JOYERR_PARMS` for a handle it accepts. -/
theorem reachable_slots_have_no_backend_id (L : Layout)
    (cs : List DriverCall) (rs : List Nat) (s : State)
    (hrun : runDriver L State.zero cs = .ok (rs, s)) :
    (∀ i : Fin MAXJOYSTICK, (s.JSTCK_Data i).in_use ≠ 0 →
      (s.JSTCK_Data i).joyIntf = (i.val : Int) ∧ (s.JSTCK_Data i).id = -1) ∧
    (∀ (E : Env) (dwDevID : Nat),
      (JSTCK_drvGet L s dwDevID = .ok 0 →
        driver_joyGetDevCaps L E s dwDevID = .ok (MMSYSERR_NODRIVER, s)) ∧
      (∀ p : Nat, JSTCK_drvGet L s dwDevID = .ok p → p ≠ 0 →
        ∃ s1 : State,
          driver_joyGetDevCaps L E s dwDevID = .ok (JOYERR_PARMS, s1))) := by
  have hinv : tableInv s := tableInv_run L cs State.zero s rs tableInv_zero hrun
  refine ⟨hinv, ?_⟩
  intro E dwDevID
  refine ⟨driver_joyGetDevCaps_rejected L E s dwDevID, ?_⟩
  intro p hget hp
  obtain ⟨rfl, i, hsl, hu⟩ := JSTCK_drvGet_accepted L s dwDevID p hget hp
  have hneg : (JSTCK_OpenDevice E s i).1 < 0 :=
    JSTCK_OpenDevice_neg E s i (by rw [(hinv i hu).2]; decide)
  exact ⟨_, by rw [driver_joyGetDevCaps_accepted L E s p i hp hget hsl, if_pos hneg]⟩

/-- In every storage reached from the zero-initialised storage by such a run,
every slot has `dev = 0`: no function of the file stores another value. -/
theorem reachable_dev_zero (L : Layout) :
    ∀ (cs : List DriverCall) (s s2 : State) (rs : List Nat),
      (∀ i : Fin MAXJOYSTICK, (s.JSTCK_Data i).dev = 0) →
      runDriver L s cs = .ok (rs, s2) →
      ∀ i : Fin MAXJOYSTICK, (s2.JSTCK_Data i).dev = 0 := by
  intro cs
  induction cs with
  | nil =>
    intro s s2 rs h hrun
    unfold runDriver at hrun
    cases hrun
    exact h
  | cons c cs ih =>
    intro s s2 rs h hrun
    obtain ⟨r, s1, rs1, hstep, hrest, -⟩ := runDriver_cons L s s2 c cs rs hrun
    apply ih s1 s2 rs1 _ hrest
    intro i
    cases c with
    | open_ n =>
      simp only [stepDriver, Except.ok.injEq] at hstep
      have e2 : s1 = (driver_open L s n).2 := by rw [hstep]
      rw [e2]
      rw [driver_open_dev L s n i]
      exact h i
    | close d =>
      unfold stepDriver at hstep
      rcases driver_close_cases L s s1 d r hstep with ⟨-, rfl⟩ | ⟨k, -, -, rfl⟩
      · exact h i
      · by_cases e : i = k
        · subst e
          unfold closed
          split_ifs <;> simp [State.setSlot, State.log, h i]
        · rw [closed_other s k i e]
          exact h i
    | getDevCaps E d =>
      unfold stepDriver at hstep
      rcases driver_joyGetDevCaps_cases L E s s1 d r hstep with
        ⟨-, -, rfl⟩ | ⟨j, -, -, -, -, rfl, -⟩
      · exact h i
      · rw [JSTCK_OpenDevice_table E s j]
        exact h i

/-- C17 (the code breaks the claim): the storage `stateOpen0` is reached from
the zero-initialised storage by `driver_open(0)`.  On it, as on every
storage, `driver_joyGetDevCaps` with the handle `wildHandle`, which is the
address of no slot, returns neither `MMSYSERR_NODRIVER` nor `JOYERR_PARMS`:
`JSTCK_drvGet` lets the handle through both tests and reads `in_use` outside
the table, and what is returned then depends on what lies there. -/
theorem C17_getDevCaps_on_wild_handle :
    runDriver layout0 State.zero [DriverCall.open_ 0] =
      .ok ([layout0.addr 0], stateOpen0) ∧
    (∀ i : Fin MAXJOYSTICK, layout0.addr i.val ≠ wildHandle) ∧
    ∀ (E : Env) (s : State),
      driver_joyGetDevCaps layout0 E s wildHandle =
        .error (Fault.wildAccess wildHandle) := by
  refine ⟨rfl, by decide, ?_⟩
  intro E s
  have hfit : layout0.base + 2 ^ 32 * layout0.size < 2 ^ 64 := by decide
  have h4 : JSTCK_drvGet layout0 s wildHandle =
      .error (Fault.wildAccess wildHandle) :=
    JSTCK_drvGet_wild layout0 (by decide) hfit s
  unfold driver_joyGetDevCaps
  rw [h4]

/-- C18: in a process that has so far made only `driver_open` and
`driver_close` calls, `last_attempt` still has its initial value 0; a call of
`JSTCK_OpenDevice` on a slot without backend connection (`id <= 0`) that
reads a tick count below 2000 is then throttled: it returns `-1`, reads the
tick count and does nothing else, and `last_attempt` stays 0. -/
theorem C18_startup_throttle (L : Layout) (E : Env) (cs : List OpenClose)
    (rs : List Nat) (s : State) (jstick : Fin MAXJOYSTICK)
    (hrun : runOpenClose L State.zero cs = .ok (rs, s))
    (hid : (s.JSTCK_Data jstick).id ≤ 0)
    (htick : E.GetTickCount < 2000) :
    s.last_attempt = 0 ∧
    JSTCK_OpenDevice E s jstick = (-1, s.log Call.GetTickCount) ∧
    (JSTCK_OpenDevice E s jstick).2.last_attempt = 0 := by
  have h0 : s.last_attempt = 0 := run_keeps_last_attempt L cs State.zero s rs hrun
  have hthr : JSTCK_OpenDevice E s jstick = (-1, s.log Call.GetTickCount) := by
    apply JSTCK_OpenDevice_throttled E s jstick hid
    rw [h0]
    unfold subDword
    omega
  refine ⟨h0, hthr, ?_⟩
  rw [hthr]
  exact h0

/-- Witness of C18: slot 0 right after `driver_open(0)`, tick count 1999. -/
theorem C18_startup_throttle_witness :
    runOpenClose layout0 State.zero [OpenClose.open_ 0] =
      .ok ([layout0.addr 0], stateOpen0) ∧
    (stateOpen0.JSTCK_Data slot0).id ≤ 0 ∧
    (envProbeOk 1999).GetTickCount < 2000 ∧
    stateOpen0.last_attempt = 0 ∧
    JSTCK_OpenDevice (envProbeOk 1999) stateOpen0 slot0 =
      (-1, stateOpen0.log Call.GetTickCount) ∧
    (JSTCK_OpenDevice (envProbeOk 1999) stateOpen0 slot0).2.last_attempt = 0 :=
  ⟨rfl, by decide, by decide,
    C18_startup_throttle layout0 (envProbeOk 1999) [OpenClose.open_ 0]
      [layout0.addr 0] stateOpen0 slot0 rfl (by decide) (by decide)⟩

/-- C19: for 32-bit `last_attempt` and tick count `now`, a call of
`JSTCK_OpenDevice` on a slot without backend connection (`id <= 0`) is
throttled exactly when `(now - last_attempt) mod 2 ^ 32 < 2000`; and when
the tick counter shows the true time modulo `2 ^ 32` and the true time
elapsed since the last attempt is `e < 2 ^ 32`, the call is throttled exactly
when `e < 2000`, whether or not the counter has wrapped in between. -/
theorem C19_throttle_exact_under_wrap (E : Env) (s : State)
    (jstick : Fin MAXJOYSTICK)
    (hid : (s.JSTCK_Data jstick).id ≤ 0)
    (hnow : E.GetTickCount < 2 ^ 32) (hla : s.last_attempt < 2 ^ 32) :
    (JSTCK_OpenDevice E s jstick = (-1, s.log Call.GetTickCount) ↔
      ((E.GetTickCount : Int) - (s.last_attempt : Int)) % 2 ^ 32 < 2000) ∧
    (∀ e : Nat, e < 2 ^ 32 →
      E.GetTickCount = (s.last_attempt + e) % 2 ^ 32 →
      (JSTCK_OpenDevice E s jstick = (-1, s.log Call.GetTickCount) ↔ e < 2000)) := by
  have hiff := JSTCK_OpenDevice_throttled_iff E s jstick hid
  rw [Nat.mod_eq_of_lt hnow] at hiff
  constructor
  · rw [hiff, ← subDword_eq_emod _ _ hnow hla]
    exact Int.ofNat_lt.symm
  · intro e he hwrap
    rw [hiff, hwrap, subDword_elapsed _ _ hla he]

/-- Witness of C19: the last attempt was 100 ticks before the counter wrapped,
the call reads tick 50 after the wrap, 150 ticks later. -/
theorem C19_throttle_exact_under_wrap_witness :
    (stateBeforeWrap.JSTCK_Data slot0).id ≤ 0 ∧
    (envNoDevice 50).GetTickCount < 2 ^ 32 ∧
    stateBeforeWrap.last_attempt < 2 ^ 32 ∧
    (JSTCK_OpenDevice (envNoDevice 50) stateBeforeWrap slot0 =
        (-1, stateBeforeWrap.log Call.GetTickCount) ↔
      (((envNoDevice 50).GetTickCount : Int) -
        (stateBeforeWrap.last_attempt : Int)) % 2 ^ 32 < 2000) ∧
    (∀ e : Nat, e < 2 ^ 32 →
      (envNoDevice 50).GetTickCount = (stateBeforeWrap.last_attempt + e) % 2 ^ 32 →
      (JSTCK_OpenDevice (envNoDevice 50) stateBeforeWrap slot0 =
          (-1, stateBeforeWrap.log Call.GetTickCount) ↔ e < 2000)) :=
  ⟨by decide, by decide, by decide,
    C19_throttle_exact_under_wrap (envNoDevice 50) stateBeforeWrap slot0
      (by decide) (by decide) (by decide)⟩

end WineJoystick
